import Mathlib

/-!
Verification development for the `ember` engine's frame-render orchestration
core (`src/core/rendering/render_manager.rs`), the geometry initializer
(`src/core/systems/geometry_init.rs`), the terrain wireframe toggle
(`src/core/systems/terrain_systems.rs`) and the input manager
(`src/core/input/input_manager.rs`).

The host graphics API (Vulkan via vulkano) is modelled by outcome scripts:
every host call whose result the code branches on (image acquisition,
swapchain creation, queue submission) takes its outcome from an explicit
argument, so the code's control flow over those outcomes is embedded exactly.
GPU objects are modelled by the data the code actually inspects: a swapchain
carries its images' extents, buffers carry the uploaded CPU data, and
matrices are 4x4 rationals (the f32/f64 literals appearing in the sources
are all exactly representable).  A Rust `panic!`/`unwrap` failure is an
explicit `panic`/`none` result.
-/

namespace Ember

abbrev Mat4 := Matrix (Fin 4) (Fin 4) ℚ

/-- Vertex of `geometries/geometry.rs` (used via cube.rs): one position attribute. -/
structure Vertex where
  position : ℚ × ℚ × ℚ
deriving DecidableEq

def Vertex.new (x y z : ℚ) : Vertex := ⟨(x, y, z)⟩

structure Extent where
  width : Nat
  height : Nat
deriving DecidableEq

/-- One presentable image of a swapchain; the code reads only its dimensions
(`images[0].dimensions().width_height()`). -/
structure SwapchainImage where
  extent : Extent
deriving DecidableEq

/-- Swapchain handle together with its images (`Swapchain::start(..).build()`
returns `(swapchain, images)`; the model keeps them together). `id`
distinguishes distinct host objects. -/
structure Swapchain where
  id : Nat
  images : List SwapchainImage
deriving DecidableEq

/-- Framebuffer: wraps exactly one image view attached to a render pass
(`Framebuffer::start(render_pass).add(view).build()`). -/
structure Framebuffer where
  renderPassId : Nat
  imageExtent : Extent
deriving DecidableEq

/-- Viewport of render_manager.rs: origin, dimensions (f32 values that are
always whole pixel counts in the code, so modelled as naturals). -/
structure Viewport where
  origin : Nat × Nat
  dimensions : Nat × Nat
deriving DecidableEq

/-- The previous-frame GPU-completion token: either the already-signaled
placeholder `sync::now(device)` or a real fence future from a submission. -/
inductive FrameFuture where
  | signaledNow
  | fenceFuture (id : Nat)
deriving DecidableEq

/-- The mutable fields of `RenderManager` that the frame path
(`draw` / `recreate_swapchain` / `acquire_swapchain_image`) reads or writes.
Handle-only fields (device, queue, instance, surface) carry no data the
embedded code branches on and are omitted; `render_pass` is its id. -/
structure RenderState where
  swapchain : Swapchain
  render_pass : Nat
  framebuffers : List Framebuffer
  viewport : Viewport
  recreate_swapchain : Bool
  previous_frame_end : FrameFuture
deriving DecidableEq

/-- Embedding of `RenderManager::window_size_dependent_setup` (lines 431-450):
reads `images[0]`'s dimensions into the viewport passed by `&mut`, and maps
every image to a framebuffer wrapping its view on the render pass.  Returns
`none` when `images` is empty (`images[0]` would panic). -/
def window_size_dependent_setup (images : List SwapchainImage) (render_pass : Nat)
    (viewport : Viewport) : Option (Viewport × List Framebuffer) :=
  match images with
  | [] => none
  | img0 :: rest =>
    some ({ viewport with dimensions := (img0.extent.width, img0.extent.height) },
      (img0 :: rest).map (fun img => { renderPassId := render_pass, imageExtent := img.extent }))

/-- Outcome of the host call `swapchain.recreate().dimensions(dims).build()`. -/
inductive SwapchainCreationResult where
  | ok (newSwapchain : Swapchain)
  | unsupportedDimensions
  | otherError
deriving DecidableEq

/-- Result of running a `&mut self` method: either it returned normally with
the new state, or it panicked. -/
inductive RecreateOutcome where
  | ret (s : RenderState)
  | panic
deriving DecidableEq

/-- Embedding of `RenderManager::recreate_swapchain` (lines 558-589).
On `UnsupportedDimensions` the Rust `return`s before any field assignment;
on any other creation error it `panic!`s; on success it clears the flag,
rebuilds the framebuffers, and replaces the swapchain.  Note the source
passes `&mut self.viewport.clone().unwrap()` to
`window_size_dependent_setup`, so the viewport update is applied to a
temporary clone and discarded: the stored viewport is left unchanged, which
the embedding reproduces by dropping the returned viewport. -/
def recreate_swapchain (s : RenderState) (r : SwapchainCreationResult) : RecreateOutcome :=
  match r with
  | .unsupportedDimensions => .ret s
  | .otherError => .panic
  | .ok newSwapchain =>
    match window_size_dependent_setup newSwapchain.images s.render_pass s.viewport with
    | none => .panic
    | some (_, fbs) =>
      .ret { s with recreate_swapchain := false, framebuffers := fbs, swapchain := newSwapchain }

/-- Outcome of one host call `swapchain::acquire_next_image(swapchain, None)`.
An `outOfDate` outcome carries the creation result that the host will hand to
the `recreate_swapchain` attempt the code performs next (the code always
performs exactly one recreation between an out-of-date result and the retry,
so the pairing is faithful). -/
inductive AcquireOutcome where
  | ok (imageNum : Nat) (suboptimal : Bool)
  | outOfDate (rec : SwapchainCreationResult)
  | otherError
deriving DecidableEq

/-- Result of `RenderManager::acquire_swapchain_image`, instrumented with the
number of recreation attempts and of acquisition calls performed.
`starved` means the outcome script was exhausted while the code was still
retrying: a run of the real code seeing that unending outcome sequence never
returns. -/
inductive AcquireResult where
  | acquired (s : RenderState) (imageNum : Nat) (suboptimal : Bool)
      (recreations : Nat) (acquisitions : Nat)
  | panic (recreations : Nat) (acquisitions : Nat)
  | starved (recreations : Nat) (acquisitions : Nat)
deriving DecidableEq

/-- Embedding of `RenderManager::acquire_swapchain_image` (lines 592-601):
`Ok(r) => r`; on `AcquireError::OutOfDate` it calls `recreate_swapchain()`
and then recursively calls itself; any other error `panic!`s.  Each list
element is the host's answer to one `acquire_next_image` call, consumed in
order. -/
def acquire_swapchain_image : RenderState → List AcquireOutcome → AcquireResult
  | _, [] => .starved 0 0
  | s, .ok n sub :: _ => .acquired s n sub 0 1
  | _, .otherError :: _ => .panic 0 1
  | s, .outOfDate rec :: rest =>
    match recreate_swapchain s rec with
    | .panic => .panic 1 1
    | .ret s1 =>
      match acquire_swapchain_image s1 rest with
      | .acquired t n sub r a => .acquired t n sub (r + 1) (a + 1)
      | .panic r a => .panic (r + 1) (a + 1)
      | .starved r a => .starved (r + 1) (a + 1)

/-- Outcome of the submission chain's `then_signal_fence_and_flush()`. -/
inductive FlushOutcome where
  | ok (futureId : Nat)
  | outOfDate
  | otherError
deriving DecidableEq

/-- Embedding of the `match future` at the end of `RenderManager::draw`
(lines 410-422): success stores the new fence future; `FlushError::OutOfDate`
sets the recreation flag and resets to the signaled placeholder; any other
error is logged and likewise reset — execution continues in every arm. -/
def handle_submit_result (s : RenderState) (r : FlushOutcome) : RenderState :=
  match r with
  | .ok fid => { s with previous_frame_end := .fenceFuture fid }
  | .outOfDate => { s with recreate_swapchain := true, previous_frame_end := .signaledNow }
  | .otherError => { s with previous_frame_end := .signaledNow }

/-- GeometryData of `geometries/geometry.rs` as used by cube.rs and the draw
loop: CPU vertex/index sequences, optional GPU buffer handles (modelled by the
uploaded contents, which is all the draw loop reads — `index_buffer().len()`),
and the `initialized` flag.  The field list follows spec §3 and the accesses
in cube.rs and render_manager.rs (geometry.rs itself is not under src/). -/
structure GeometryData where
  vertices : List Vertex
  indices : List Nat
  vertex_buffer : Option (List Vertex)
  index_buffer : Option (List Nat)
  initialized : Bool
deriving DecidableEq

/-- Embedding of `Geometry::initialize` as implemented in cube.rs
(lines 57-84): unconditionally uploads both CPU sequences as device buffers
and sets the flag. -/
def GeometryData.initialize_buffers (g : GeometryData) : GeometryData :=
  { g with vertex_buffer := some g.vertices, index_buffer := some g.indices, initialized := true }

/-- CubeGeometry::create's vertex list (cube.rs lines 17-34; identical
literals appear in geometry_init.rs `init_cube`): 8 corners of a unit cube. -/
def cube_vertices : List Vertex :=
  let dx : ℚ := 1/2
  let tl0 := Vertex.new (0 - dx) (0 + dx) (0 - dx)
  let tr0 := Vertex.new (0 + dx) (0 + dx) (0 - dx)
  let bl0 := Vertex.new (0 - dx) (0 - dx) (0 - dx)
  let br0 := Vertex.new (0 + dx) (0 - dx) (0 - dx)
  let tl1 := Vertex.new (0 - dx) (0 + dx) (0 + dx)
  let tr1 := Vertex.new (0 + dx) (0 + dx) (0 + dx)
  let bl1 := Vertex.new (0 - dx) (0 - dx) (0 + dx)
  let br1 := Vertex.new (0 + dx) (0 - dx) (0 + dx)
  [tl0, tr0, bl0, br0, tl1, tr1, bl1, br1]

/-- CubeGeometry::create's index list (cube.rs lines 37-44; identical in
geometry_init.rs): six faces of two triangles each, 36 indices. -/
def cube_indices : List Nat :=
  [4, 5, 7, 6, 4, 7,
   3, 2, 7, 2, 6, 7,
   7, 5, 1, 3, 7, 1,
   5, 4, 0, 1, 5, 0,
   4, 6, 2, 0, 4, 2,
   2, 3, 0, 1, 2, 0]

/-- Embedding of `CubeGeometry::create` (cube.rs lines 17-55): CPU data set,
no GPU buffers, not initialized. -/
def cube_geometry_create : GeometryData :=
  { vertices := cube_vertices, indices := cube_indices,
    vertex_buffer := none, index_buffer := none, initialized := false }

/-- Transform component as read by `RenderManager::draw`
(`transform.global_position`, `transform.rotation`); the component's own file
is not under src/, the field list follows spec §3 and those reads. -/
structure Transform where
  global_position : ℚ × ℚ × ℚ
  rotation : Mat4

/-- Modelled from the spec: CameraComponent (camera_component.rs is not under
src/).  Per §6 a camera yields a view matrix and a projection matrix; `draw`
writes `camera.aspect` and then reads `get_view()`/`get_perspective()`, which
the model represents as stored matrices (their internal dependence on the
camera's parameters is opaque here). -/
structure Camera where
  aspect : ℚ
  view : Mat4
  perspective : Mat4

/-- One renderable entity as joined by the draw loop:
`(&renderables, &transforms).join()` pairs a geometry-bearing renderable with
a transform. -/
structure Entity where
  renderable : GeometryData
  transform : Transform

/-- The slice of the ECS world that `RenderManager::draw` touches. -/
structure Scene where
  entities : List Entity
  cameras : List Camera

/-- Matrix4::from_translation of cgmath: identity with the translation vector
in the fourth column. -/
def from_translation (v : ℚ × ℚ × ℚ) : Mat4 :=
  Matrix.of ![![1, 0, 0, v.1], ![0, 1, 0, v.2.1], ![0, 0, 1, v.2.2], ![0, 0, 0, 1]]

/-- Embedding of the camera block of `draw` (lines 351-363): `view` and
`perspective` start as `Matrix4::from_scale(1.0)` (the identity) and are
overwritten by every camera in iteration order, so the last camera wins and
with no cameras both stay the identity. -/
def resolve_camera_matrices (cameras : List Camera) : Mat4 × Mat4 :=
  cameras.foldl (fun _ c => (c.view, c.perspective)) (1, 1)

/-- Embedding of `RenderableInitializerSystem::run` (render_manager.rs lines
647-656): initializes exactly the renderables whose flag is unset. -/
def scene_prep (entities : List Entity) : List Entity :=
  entities.map (fun e =>
    if e.renderable.initialized then e else { e with renderable := e.renderable.initialize_buffers })

/-- Arguments of one recorded `draw_indexed` call (index count, instance
count, first index, vertex offset, first instance). -/
structure DrawCmd where
  index_count : Nat
  instance_count : Nat
  first_index : Nat
  vertex_offset : Nat
  first_instance : Nat
deriving DecidableEq

/-- Embedding of the per-entity loop of `draw` (lines 367-391): for each
(renderable, transform) pair compute
`model_to_world = rotation * translation`, the uniform
`perspective * view * model_to_world`, bind the geometry's vertex and index
buffers (`unwrap` panics — `none` — if a buffer is missing) and record
`draw_indexed(index_buffer.len(), 1, 0, 0, 0)`. -/
def encode_entities (perspective view : Mat4) : List Entity → Option (List (Mat4 × DrawCmd))
  | [] => some []
  | e :: rest =>
    match e.renderable.vertex_buffer, e.renderable.index_buffer with
    | some _, some ib =>
      match encode_entities perspective view rest with
      | none => none
      | some cmds =>
        some ((perspective * view * (e.transform.rotation * from_translation e.transform.global_position),
          ⟨ib.length, 1, 0, 0, 0⟩) :: cmds)
    | _, _ => none

/-- Result of one `RenderManager::draw` call: a produced frame (post state,
post scene, recorded indexed draws), a panic, or non-termination of the
acquisition retry loop (`hung`, when the acquisition outcome script was
exhausted while the code was still retrying). -/
inductive DrawResult where
  | frame (s : RenderState) (scene : Scene) (cmds : List (Mat4 × DrawCmd))
  | panicked
  | hung

/-- Embedding of `RenderManager::draw` (lines 305-424): prep renderables,
acquire an image (retrying through recreation on out-of-date), on a
suboptimal acquisition immediately call `recreate_swapchain()` with the
host's creation result `suboptimal_rec`, open the render pass on
`framebuffers[image_num]` (panic if out of bounds), update every camera's
aspect ratio from the window dimensions and take the last camera's matrices,
encode one indexed draw per (renderable, transform) entity, then submit and
dispatch on the flush outcome.  Command-buffer recording is abstracted to the
list of recorded `draw_indexed` calls with their uniform matrices. -/
def draw (s : RenderState) (scene : Scene) (window_dims : Nat × Nat)
    (acq_script : List AcquireOutcome) (suboptimal_rec : SwapchainCreationResult)
    (submit : FlushOutcome) : DrawResult :=
  let entities := scene_prep scene.entities
  match acquire_swapchain_image s acq_script with
  | .starved _ _ => .hung
  | .panic _ _ => .panicked
  | .acquired s1 image_num suboptimal _ _ =>
    match (if suboptimal then recreate_swapchain s1 suboptimal_rec else .ret s1) with
    | .panic => .panicked
    | .ret s2 =>
      if image_num < s2.framebuffers.length then
        let aspect : ℚ := (window_dims.1 : ℚ) / (window_dims.2 : ℚ)
        let cameras := scene.cameras.map (fun c => { c with aspect := aspect })
        let vp := resolve_camera_matrices cameras
        match encode_entities vp.2 vp.1 entities with
        | none => .panicked
        | some cmds => .frame (handle_submit_result s2 submit) ⟨entities, cameras⟩ cmds
      else .panicked

/-- GeometryType of geometry_component.rs as matched in geometry_init.rs. -/
inductive GeometryType where
  | box
  | triangle
  | plane
deriving DecidableEq

/-- GeometryComponent as read/written by geometry_init.rs
(`geom.geometry_type`, `geom.vertices`, `geom.indices`, `geom.initialize`);
the component's own file is not under src/, the field list follows spec §3.
GPU buffer handles are modelled as device-allocator ids so that distinct
uploads yield distinct handles. -/
structure GeometryComponent where
  geometry_type : GeometryType
  vertices : List Vertex
  indices : List Nat
  vertex_buffer : Option Nat
  index_buffer : Option Nat
  initialized : Bool
deriving DecidableEq

/-- Modelled from the spec: `GeometryComponent::initialize`
(geometry_component.rs is not under src/).  Per §3 ("GPU handles are `Some`
iff `initialized == true`") and §4.4 ("upload both as device-accessible
buffers, and set `initialized = true`"), and matching the in-repo
`Geometry::initialize` of cube.rs which creates fresh device buffers on every
call, each call uploads both sequences as newly allocated buffers; the device
allocator is the `alloc` counter handing out fresh handle ids. -/
def GeometryComponent.initialize_component (g : GeometryComponent) (alloc : Nat) :
    GeometryComponent × Nat :=
  ({ g with vertex_buffer := some alloc, index_buffer := some (alloc + 1), initialized := true },
   alloc + 2)

/-- Embedding of `GeometryInitializerSystem::init_cube` (geometry_init.rs
lines 27-59): overwrite the CPU sequences with the cube data (the literals
coincide with cube.rs, shared here as `cube_vertices`/`cube_indices`). -/
def init_cube (g : GeometryComponent) : GeometryComponent :=
  { g with vertices := cube_vertices, indices := cube_indices }

/-- Embedding of `init_plane` (geometry_init.rs lines 61-73). -/
def init_plane (g : GeometryComponent) : GeometryComponent :=
  let c : ℚ := 1/2
  { g with
    vertices := [⟨(-c, c, 0)⟩, ⟨(c, c, 0)⟩, ⟨(-c, -c, 0)⟩, ⟨(c, -c, 0)⟩],
    indices := [0, 1, 3, 2, 0, 3] }

/-- Embedding of `init_triangle` (geometry_init.rs lines 75-85). -/
def init_triangle (g : GeometryComponent) : GeometryComponent :=
  let c : ℚ := 1/2
  { g with
    vertices := [⟨(-c, -c, 0)⟩, ⟨(0, c, 0)⟩, ⟨(c, -c, 0)⟩],
    indices := [0, 1, 2, 0] }

/-- Embedding of `GeometryInitializerSystem::create_geometry` (geometry_init.rs
lines 18-25): dispatch on the geometry type to regenerate the CPU data, then
call `geom.initialize(device)`. -/
def create_geometry (g : GeometryComponent) (alloc : Nat) : GeometryComponent × Nat :=
  let g1 :=
    match g.geometry_type with
    | .box => init_cube g
    | .triangle => init_triangle g
    | .plane => init_plane g
  g1.initialize_component alloc

/-- Embedding of `GeometryInitializerSystem::run` (geometry_init.rs lines
94-102): for every geometry component — with no initialized-guard — call
`create_geometry` and then `initialize` once more. -/
def geometry_initializer_run (geometries : List GeometryComponent) (alloc : Nat) :
    List GeometryComponent × Nat :=
  geometries.foldl
    (fun acc g =>
      let r1 := create_geometry g acc.2
      let r2 := r1.1.initialize_component r1.2
      (acc.1 ++ [r2.1], r2.2))
    ([], alloc)

/-- Primitive topologies relevant to the wireframe toggle, plus enough other
variants to represent an undefined third state. -/
inductive PrimitiveTopology where
  | pointList
  | lineList
  | lineStrip
  | triangleList
  | triangleStrip
deriving DecidableEq

/-- Graphics pipeline as built by `TerrainAssemblyStateSystemPipeline::create_pipeline`
and `TerrainDrawSystemPipeline::create_graphics_pipeline`: the input-assembly
topology plus the fixed state those constructors always set (back-face
culling, counter-clockwise front face, simple depth test) and the target
subpass (modelled by the render pass id, subpass index 0 throughout). -/
structure GraphicsPipeline where
  topology : PrimitiveTopology
  cull_back : Bool
  front_face_ccw : Bool
  depth_test : Bool
  subpass : Nat
deriving DecidableEq

/-- Embedding of `TerrainAssemblyStateSystemPipeline::create_pipeline`
(terrain_systems.rs lines 213-248): same shaders and fixed state every time,
only the topology and subpass vary. -/
def create_pipeline (subpass : Nat) (topology : PrimitiveTopology) : GraphicsPipeline :=
  { topology := topology, cull_back := true, front_face_ccw := true,
    depth_test := true, subpass := subpass }

structure ModifiersState where
  shift : Bool
  alt : Bool
deriving DecidableEq

inductive VirtualKeyCode where
  | w
  | a
  | s
  | d
  | z
  | other (code : Nat)
deriving DecidableEq

/-- Embedding of `TerrainAssemblyStateModifierSystem` (terrain_systems.rs
lines 185-209).  On Shift+Alt+Z it matches the current pipeline's topology:
`TriangleList` flips to `LineStrip`, `LineStrip` flips back, and any other
topology hits `unreachable!()` (`none`); the flipped pipeline is rebuilt on
subpass 0 of `render_passes[0]` and published via `set_pipeline_for_system`.
The result is the pipeline stored for `TerrainDrawSystemPipeline` after the
system runs (`none` = panic). -/
def terrain_assembly_state_modifier_system (modifiers : ModifiersState)
    (input : List VirtualKeyCode) (pipeline : GraphicsPipeline) (render_pass0 : Nat) :
    Option GraphicsPipeline :=
  if modifiers.shift && modifiers.alt && input.contains .z then
    match pipeline.topology with
    | .triangleList => some (create_pipeline render_pass0 .lineStrip)
    | .lineStrip => some (create_pipeline render_pass0 .triangleList)
    | _ => none
  else
    some pipeline

/-- InputManager state (input_manager.rs lines 8-11). -/
structure InputManagerState where
  modifier_state : Option ModifiersState
  current_key_pressed : Option VirtualKeyCode
deriving DecidableEq

/-- Embedding of `InputManager::handle_key_input` (input_manager.rs lines
46-57): `key_pressed.unwrap()` panics (`none`) when the argument is `None`;
otherwise the match arms only log and `current_key_pressed` is set to the
argument. -/
def handle_key_input (m : InputManagerState) (key_pressed : Option VirtualKeyCode) :
    Option InputManagerState :=
  match key_pressed with
  | none => none
  | some _ => some { m with current_key_pressed := key_pressed }

/-! Concrete sample data used by the closed evaluation theorems below. -/

def c1_img : SwapchainImage := ⟨⟨640, 480⟩⟩

def c1_sc_new : Swapchain := ⟨2, [c1_img]⟩

def c1_s0 : RenderState :=
  ⟨⟨1, [c1_img]⟩, 0, [⟨0, ⟨640, 480⟩⟩], ⟨(0, 0), (640, 480)⟩, false, .signaledNow⟩

/-- The state `c1_s0` after a successful recreation replacing the swapchain
with `c1_sc_new`. -/
def c1_s1 : RenderState :=
  { c1_s0 with
    recreate_swapchain := false
    framebuffers := [⟨0, ⟨640, 480⟩⟩]
    swapchain := c1_sc_new }

def c2_img : SwapchainImage := ⟨⟨800, 600⟩⟩

def c2_sc_new : Swapchain := ⟨2, [c2_img, c2_img]⟩

def c2_s0 : RenderState :=
  ⟨⟨1, [⟨⟨1024, 768⟩⟩]⟩, 7, [⟨7, ⟨1024, 768⟩⟩], ⟨(0, 0), (1024, 768)⟩, true, .signaledNow⟩

/-- The state `c2_s0` after `recreate_swapchain` succeeds with `c2_sc_new`. -/
def c2_s1 : RenderState :=
  { c2_s0 with
    recreate_swapchain := false
    framebuffers := [⟨7, ⟨800, 600⟩⟩, ⟨7, ⟨800, 600⟩⟩]
    swapchain := c2_sc_new }

def c4_s0 : RenderState :=
  ⟨⟨1, [⟨⟨640, 480⟩⟩]⟩, 0, [⟨0, ⟨640, 480⟩⟩], ⟨(0, 0), (640, 480)⟩, false, .fenceFuture 0⟩

def c4_s1 : RenderState := { c4_s0 with previous_frame_end := .signaledNow }

def c4_s2 : RenderState := { c4_s0 with previous_frame_end := .fenceFuture 7 }

def c5_sc_new : Swapchain := ⟨2, [⟨⟨320, 240⟩⟩]⟩

def c5_s0 : RenderState :=
  ⟨⟨1, [⟨⟨640, 480⟩⟩]⟩, 0, [⟨0, ⟨640, 480⟩⟩], ⟨(0, 0), (640, 480)⟩, false, .signaledNow⟩

/-- The state `c5_s0` after the draw call that was handed a suboptimal
acquisition: the swapchain has already been replaced and the framebuffers
rebuilt within that same call. -/
def c5_s1 : RenderState :=
  { c5_s0 with
    framebuffers := [⟨0, ⟨320, 240⟩⟩]
    swapchain := c5_sc_new
    previous_frame_end := .fenceFuture 3 }

def c6_g0 : GeometryComponent := ⟨.box, [], [], none, none, false⟩

/-- The geometry after the first `GeometryInitializerSystem::run` (allocator
started at 0; the run calls `initialize` twice, so the surviving handles are
the second pair). -/
def c6_g1 : GeometryComponent := ⟨.box, cube_vertices, cube_indices, some 2, some 3, true⟩

/-- The geometry after the second run (allocator resumed at 4). -/
def c6_g2 : GeometryComponent := ⟨.box, cube_vertices, cube_indices, some 6, some 7, true⟩

/-- A cube entity whose geometry has been initialized, with a transform at the
origin and identity rotation. -/
def c8_entity : Entity := ⟨cube_geometry_create.initialize_buffers, ⟨(0, 0, 0), 1⟩⟩

def c8w_s : RenderState :=
  ⟨⟨1, [⟨⟨640, 480⟩⟩]⟩, 0, [⟨0, ⟨640, 480⟩⟩], ⟨(0, 0), (640, 480)⟩, false, .signaledNow⟩

def c8w_cam : Camera := ⟨1, 1, 1⟩

def c9w_s : RenderState :=
  ⟨⟨1, [⟨⟨640, 480⟩⟩]⟩, 0, [⟨0, ⟨640, 480⟩⟩], ⟨(0, 0), (640, 480)⟩, false, .signaledNow⟩

/-- An uninitialized one-triangle entity at the origin. -/
def c9w_entity : Entity :=
  ⟨⟨[Vertex.new 0 0 0, Vertex.new 0 1 0, Vertex.new 1 0 0], [0, 1, 2], none, none, false⟩,
   ⟨(0, 0, 0), 1⟩⟩

/-! Helper lemmas (shared; not tied to a single claim). -/

lemma from_translation_zero : from_translation ((0 : ℚ), (0 : ℚ), (0 : ℚ)) = 1 := by
  decide

/-- When every entity has both GPU buffers, the encoding loop records one
indexed draw per entity, with the full index count and the
`perspective * view * model` uniform. -/
lemma encode_entities_all_some (p v : Mat4) (es : List Entity)
    (h : ∀ e ∈ es, e.renderable.vertex_buffer.isSome ∧ e.renderable.index_buffer.isSome) :
    encode_entities p v es
      = some (es.map (fun e =>
          (p * v * (e.transform.rotation * from_translation e.transform.global_position),
           ⟨(e.renderable.index_buffer.getD []).length, 1, 0, 0, 0⟩))) := by
  induction es with
  | nil => rfl
  | cons e rest ih =>
    obtain ⟨⟨hv, hi⟩, hrest⟩ : (e.renderable.vertex_buffer.isSome ∧
        e.renderable.index_buffer.isSome) ∧
        ∀ x ∈ rest, x.renderable.vertex_buffer.isSome ∧ x.renderable.index_buffer.isSome := by
      constructor
      · exact h e (List.mem_cons_self e rest)
      · exact fun x hx => h x (List.mem_cons_of_mem e hx)
    obtain ⟨vb, hvb⟩ := Option.isSome_iff_exists.mp hv
    obtain ⟨ib, hib⟩ := Option.isSome_iff_exists.mp hi
    simp [encode_entities, hvb, hib, ih hrest]

/-- One out-of-date step of the acquisition loop: a returning recreation
followed by a successful retry adds one recreation attempt and one
acquisition call to the counts. -/
lemma acquire_cons_out_of_date_ret (s s1 : RenderState) (rec : SwapchainCreationResult)
    (rest : List AcquireOutcome) (t : RenderState) (n : Nat) (sub : Bool) (r a : Nat)
    (h1 : recreate_swapchain s rec = .ret s1)
    (h2 : acquire_swapchain_image s1 rest = .acquired t n sub r a) :
    acquire_swapchain_image s (.outOfDate rec :: rest) = .acquired t n sub (r + 1) (a + 1) := by
  simp [acquire_swapchain_image, h1, h2]

/-- Scene prep leaves every entity with both GPU buffers present, provided the
already-initialized ones satisfied the handles-iff-initialized invariant. -/
lemma scene_prep_all_some (es : List Entity)
    (h : ∀ e ∈ es, e.renderable.initialized = true →
      e.renderable.vertex_buffer.isSome ∧ e.renderable.index_buffer.isSome) :
    ∀ e ∈ scene_prep es,
      e.renderable.vertex_buffer.isSome ∧ e.renderable.index_buffer.isSome := by
  intro e he
  simp only [scene_prep, List.mem_map] at he
  obtain ⟨a, ha, rfl⟩ := he
  by_cases hinit : a.renderable.initialized
  · simpa [hinit] using h a ha hinit
  · simp [hinit, GeometryData.initialize_buffers]

/-! Theorems settling the claims. -/

/-- C3: a swapchain recreation attempt that fails with unsupported dimensions
is a state-preserving no-op — the `UnsupportedDimensions` arm returns before
any field assignment, with no panic and no error surfaced. -/
theorem recreate_swapchain_unsupported_dimensions_noop (s : RenderState) :
    recreate_swapchain s .unsupportedDimensions = .ret s := rfl

/-- C2 (code bug): at a successful recreation from stored viewport 1024x768
to new image extent 800x600, the framebuffers are regenerated one per image
with the new extent, the swapchain is replaced and the flag cleared — but the
stored viewport is bit-for-bit unchanged (the update landed on a discarded
clone), so its dimensions do not equal the new extent as the claim states. -/
theorem recreate_swapchain_viewport_stale_eval :
    recreate_swapchain c2_s0 (.ok c2_sc_new) = .ret c2_s1
    ∧ c2_s1.framebuffers.length = c2_sc_new.images.length
    ∧ (∀ fb ∈ c2_s1.framebuffers, fb.imageExtent = ⟨800, 600⟩)
    ∧ c2_s1.swapchain = c2_sc_new
    ∧ c2_s1.recreate_swapchain = false
    ∧ c2_s1.viewport = c2_s0.viewport
    ∧ c2_s1.viewport.dimensions ≠ (800, 600) := by
  decide

/-- C1 (counterexample): with the host answering out-of-date twice and then
succeeding, acquisition performs two recreation attempts and three
acquisition calls (two retries) before a frame is produced — not the exactly
one recreation and one retry the claim states; and a script of five
consecutive out-of-date answers is consumed whole with the code still
retrying, exhibiting the unbounded loop. -/
theorem acquire_two_out_of_dates_counterexample :
    acquire_swapchain_image c1_s0
        [.outOfDate (.ok c1_sc_new), .outOfDate (.ok c1_sc_new), .ok 0 false]
      = .acquired c1_s1 0 false 2 3
    ∧ (2 : Nat) ≠ 1
    ∧ acquire_swapchain_image c1_s0 (List.replicate 5 (.outOfDate (.ok c1_sc_new)))
      = .starved 5 5 := by
  decide

/-- C4 (counterexample): a submission failure other than out-of-date is not
fatal — the draw call returns normally with the completion tracker reset to
the signaled placeholder, and the subsequent draw call proceeds and produces
a frame. -/
theorem submit_error_not_fatal_counterexample :
    draw c4_s0 ⟨[], []⟩ (640, 480) [.ok 0 false] .unsupportedDimensions .otherError
      = .frame c4_s1 ⟨[], []⟩ []
    ∧ draw c4_s1 ⟨[], []⟩ (640, 480) [.ok 0 false] .unsupportedDimensions (.ok 7)
      = .frame c4_s2 ⟨[], []⟩ [] :=
  ⟨rfl, rfl⟩

/-- C4 (amended): every submission failure other than out-of-date is absorbed,
not fatal: the error is only logged, the frame is dropped, and
`previous_frame_end` is reset to the already-signaled placeholder so rendering
continues. -/
theorem submit_error_absorbed (s : RenderState) :
    handle_submit_result s .otherError = { s with previous_frame_end := .signaledNow } := rfl

/-- C6 (code bug): running the geometry initializer a second time on an
already-initialized box geometry is not a no-op — each run re-uploads and
replaces both GPU buffer handles (the run even calls `initialize` twice), so
the handles after the second run differ from those after the first, although
the CPU vertex/index data and the initialized flag keep their values. -/
theorem geometry_init_second_run_reuploads_eval :
    geometry_initializer_run [c6_g0] 0 = ([c6_g1], 4)
    ∧ geometry_initializer_run [c6_g1] 4 = ([c6_g2], 8)
    ∧ c6_g2.vertex_buffer ≠ c6_g1.vertex_buffer
    ∧ c6_g2.index_buffer ≠ c6_g1.index_buffer
    ∧ c6_g2.vertices = c6_g1.vertices
    ∧ c6_g2.indices = c6_g1.indices
    ∧ c6_g2.initialized = c6_g1.initialized :=
  ⟨rfl, rfl, by decide, by decide, rfl, rfl, rfl⟩

/-- C10: `InputManager::handle_key_input` unconditionally unwraps its `Option`
argument, so it panics exactly when called with `None`; on `Some key` it
completes normally, storing the key as the current key pressed. -/
theorem handle_key_input_panics_on_none :
    (∀ m : InputManagerState, handle_key_input m none = none)
    ∧ ∀ (m : InputManagerState) (k : VirtualKeyCode),
        handle_key_input m (some k) = some { m with current_key_pressed := some k } :=
  ⟨fun _ => rfl, fun _ _ => rfl⟩

/-- C1 (amended): on out-of-date the code recreates the swapchain and retries
recursively with no bound on the number of retries — a script of k
consecutive out-of-date outcomes (each recreation succeeding) followed by a
successful acquisition produces a frame after exactly k recreation attempts
and k+1 acquisition calls; any non-out-of-date acquisition error is fatal
(panic) at the first acquisition that reports it. -/
theorem acquire_out_of_date_unbounded_retries :
    (∀ (k : Nat) (s : RenderState) (sc : Swapchain) (img : SwapchainImage)
        (rest : List SwapchainImage) (n : Nat) (sub : Bool),
      sc.images = img :: rest →
      ∃ t, acquire_swapchain_image s
          (List.replicate k (AcquireOutcome.outOfDate (.ok sc)) ++ [AcquireOutcome.ok n sub])
        = .acquired t n sub k (k + 1))
    ∧ (∀ (s : RenderState) (l : List AcquireOutcome),
        acquire_swapchain_image s (AcquireOutcome.otherError :: l) = .panic 0 1) := by
  constructor
  · intro k
    induction k with
    | zero =>
      intro s sc img rest n sub _
      exact ⟨s, rfl⟩
    | succ k ih =>
      intro s sc img rest n sub h
      have hrec : recreate_swapchain s (.ok sc)
          = .ret { s with
              recreate_swapchain := false
              framebuffers := (img :: rest).map
                (fun i => { renderPassId := s.render_pass, imageExtent := i.extent })
              swapchain := sc } := by
        simp [recreate_swapchain, window_size_dependent_setup, h]
      obtain ⟨t, ht⟩ := ih ({ s with
          recreate_swapchain := false
          framebuffers := (img :: rest).map
            (fun i => { renderPassId := s.render_pass, imageExtent := i.extent })
          swapchain := sc }) sc img rest n sub h
      refine ⟨t, ?_⟩
      rw [List.replicate_succ, List.cons_append]
      exact acquire_cons_out_of_date_ret s _ _ _ t n sub k (k + 1) hrec ht
  · intro s l
    rfl

/-- C1 (witness): three consecutive out-of-date outcomes followed by a
success give three recreation attempts and four acquisition calls. -/
theorem acquire_out_of_date_unbounded_retries_witness :
    c1_sc_new.images = c1_img :: []
    ∧ ∃ t, acquire_swapchain_image c1_s0
        (List.replicate 3 (AcquireOutcome.outOfDate (.ok c1_sc_new))
          ++ [AcquireOutcome.ok 0 false])
      = .acquired t 0 false 3 4 :=
  ⟨rfl, acquire_out_of_date_unbounded_retries.1 3 c1_s0 c1_sc_new c1_img [] 0 false rfl⟩

/-- C5 (counterexample): with a suboptimal acquisition the draw call still
produces the frame, but the swapchain recreation is performed during that
very call — the post-state's swapchain is already the new one and the
recreation flag is not set for the next call, contradicting the claim that
recreation is only scheduled and deferred. -/
theorem suboptimal_immediate_recreation_counterexample :
    draw c5_s0 ⟨[], []⟩ (640, 480) [.ok 0 true] (.ok c5_sc_new) (.ok 3)
      = .frame c5_s1 ⟨[], []⟩ []
    ∧ c5_s1.swapchain = c5_sc_new
    ∧ c5_sc_new ≠ c5_s0.swapchain
    ∧ c5_s1.recreate_swapchain = false :=
  ⟨rfl, rfl, by decide, rfl⟩

/-- C5 (amended): when acquisition reports suboptimal, the current frame
proceeds to be drawn and presented, but swapchain recreation is performed
immediately within the current draw call (`recreate_swapchain()` is invoked
right after acquisition): the post-state of that same call already holds the
new swapchain with rebuilt framebuffers and a cleared flag. -/
theorem suboptimal_recreates_within_current_draw (s : RenderState) (sc : Swapchain)
    (img : SwapchainImage) (rest : List SwapchainImage) (n fid : Nat) (wd : Nat × Nat)
    (h : sc.images = img :: rest) (hn : n < sc.images.length) :
    draw s ⟨[], []⟩ wd [.ok n true] (.ok sc) (.ok fid)
      = .frame { s with
          recreate_swapchain := false
          framebuffers := sc.images.map
            (fun i => { renderPassId := s.render_pass, imageExtent := i.extent })
          swapchain := sc
          previous_frame_end := .fenceFuture fid } ⟨[], []⟩ [] := by
  have hrec : recreate_swapchain s (.ok sc)
      = .ret { s with
          recreate_swapchain := false
          framebuffers := sc.images.map
            (fun i => { renderPassId := s.render_pass, imageExtent := i.extent })
          swapchain := sc } := by
    simp [recreate_swapchain, window_size_dependent_setup, h]
  have hn2 : n < (sc.images.map
      (fun i => ({ renderPassId := s.render_pass, imageExtent := i.extent } : Framebuffer))).length := by
    simpa using hn
  simp only [draw, acquire_swapchain_image, if_true, hrec, scene_prep, List.map_nil,
    resolve_camera_matrices, List.foldl_nil, encode_entities, handle_submit_result, hn2,
    if_pos]

/-- C5 (witness): concrete instance of the immediate-recreation behavior. -/
theorem suboptimal_recreates_within_current_draw_witness :
    c5_sc_new.images = (⟨⟨320, 240⟩⟩ : SwapchainImage) :: []
    ∧ 0 < c5_sc_new.images.length
    ∧ draw c5_s0 ⟨[], []⟩ (640, 480) [.ok 0 true] (.ok c5_sc_new) (.ok 3)
      = .frame { c5_s0 with
          recreate_swapchain := false
          framebuffers := c5_sc_new.images.map
            (fun i => { renderPassId := c5_s0.render_pass, imageExtent := i.extent })
          swapchain := c5_sc_new
          previous_frame_end := .fenceFuture 3 } ⟨[], []⟩ [] :=
  ⟨rfl, by decide,
    suboptimal_recreates_within_current_draw c5_s0 c5_sc_new ⟨⟨320, 240⟩⟩ [] 0 3 (640, 480)
      rfl (by decide)⟩

/-- C7: when the Shift+Alt+Z trigger fires, the wireframe toggle is an
involution on the two defined topology states — toggling twice from
triangle-list or line-strip topology returns the pipeline to the starting
topology — and toggling from any other topology fails explicitly
(`unreachable!`) instead of producing a pipeline. -/
theorem wireframe_toggle_involution (m : ModifiersState) (input : List VirtualKeyCode)
    (p : GraphicsPipeline) (rp : Nat)
    (hs : m.shift = true) (ha : m.alt = true)
    (hz : input.contains VirtualKeyCode.z = true) :
    ((p.topology = .triangleList ∨ p.topology = .lineStrip) →
      ∃ p1 p2,
        terrain_assembly_state_modifier_system m input p rp = some p1
        ∧ terrain_assembly_state_modifier_system m input p1 rp = some p2
        ∧ p2.topology = p.topology)
    ∧ (p.topology ≠ .triangleList → p.topology ≠ .lineStrip →
        terrain_assembly_state_modifier_system m input p rp = none) := by
  have htrig : (m.shift && m.alt && input.contains VirtualKeyCode.z) = true := by
    rw [hs, ha, hz]
    rfl
  constructor
  · rintro (hT | hT)
    · refine ⟨create_pipeline rp .lineStrip, create_pipeline rp .triangleList, ?_, ?_, ?_⟩
      · simp only [terrain_assembly_state_modifier_system]
        rw [if_pos htrig, hT]
      · simp only [terrain_assembly_state_modifier_system]
        rw [if_pos htrig]
        rfl
      · rw [hT]
        rfl
    · refine ⟨create_pipeline rp .triangleList, create_pipeline rp .lineStrip, ?_, ?_, ?_⟩
      · simp only [terrain_assembly_state_modifier_system]
        rw [if_pos htrig, hT]
      · simp only [terrain_assembly_state_modifier_system]
        rw [if_pos htrig]
        rfl
      · rw [hT]
        rfl
  · intro h1 h2
    simp only [terrain_assembly_state_modifier_system]
    rw [if_pos htrig]

/-- C7 (witness): toggling twice from triangle-list topology returns to it. -/
theorem wireframe_toggle_involution_witness :
    ∃ p1 p2,
      terrain_assembly_state_modifier_system ⟨true, true⟩ [VirtualKeyCode.z]
        (create_pipeline 0 .triangleList) 0 = some p1
      ∧ terrain_assembly_state_modifier_system ⟨true, true⟩ [VirtualKeyCode.z] p1 0 = some p2
      ∧ p2.topology = (create_pipeline 0 .triangleList).topology :=
  (wireframe_toggle_involution ⟨true, true⟩ [VirtualKeyCode.z] (create_pipeline 0 .triangleList)
    0 rfl rfl (by decide)).1 (Or.inl rfl)

/-- C8: for a scene with one camera, one initialized cube geometry (8
vertices, 36 indices) and a transform at the origin, a single draw call
records exactly one indexed draw whose index count is 36, and the post-scene
keeps the entity — its transform and its geometry's CPU data — unchanged. -/
theorem single_cube_scene_one_indexed_draw (s : RenderState) (cam : Camera)
    (n fid : Nat) (wd : Nat × Nat) (rec : SwapchainCreationResult)
    (h : n < s.framebuffers.length) :
    ∃ cam1, draw s ⟨[c8_entity], [cam]⟩ wd [.ok n false] rec (.ok fid)
      = .frame { s with previous_frame_end := .fenceFuture fid }
          ⟨[c8_entity], [cam1]⟩
          [(cam.perspective * cam.view, ⟨36, 1, 0, 0, 0⟩)] := by
  refine ⟨{ cam with aspect := (wd.1 : ℚ) / (wd.2 : ℚ) }, ?_⟩
  have hprep : scene_prep [c8_entity] = [c8_entity] := rfl
  have henc : ∀ p v : Mat4, encode_entities p v [c8_entity]
      = some [(p * v * (1 * from_translation ((0 : ℚ), (0 : ℚ), (0 : ℚ))), ⟨36, 1, 0, 0, 0⟩)] :=
    fun p v => rfl
  simp only [draw, acquire_swapchain_image, hprep, henc, resolve_camera_matrices,
    List.map_cons, List.map_nil, List.foldl_cons, List.foldl_nil, h, if_pos,
    handle_submit_result, from_translation_zero, mul_one, one_mul, Bool.false_eq_true,
    if_false]

/-- C8 (witness): concrete single-cube scene. -/
theorem single_cube_scene_one_indexed_draw_witness :
    0 < c8w_s.framebuffers.length
    ∧ ∃ cam1, draw c8w_s ⟨[c8_entity], [c8w_cam]⟩ (4, 3) [.ok 0 false]
        .unsupportedDimensions (.ok 9)
      = .frame { c8w_s with previous_frame_end := .fenceFuture 9 }
          ⟨[c8_entity], [cam1]⟩
          [(c8w_cam.perspective * c8w_cam.view, ⟨36, 1, 0, 0, 0⟩)] :=
  ⟨by decide,
    single_cube_scene_one_indexed_draw c8w_s c8w_cam 0 9 (4, 3) .unsupportedDimensions
      (by decide)⟩

/-- C9: with zero camera entities the draw call does not fail — `view` and
`perspective` keep their identity initialization, so every entity is rendered
with uniform `1 * 1 * model = model`: the recorded uniforms are exactly the
entities' model matrices. -/
theorem draw_without_cameras_identity_view_projection (s : RenderState)
    (es : List Entity) (wd : Nat × Nat) (n fid : Nat) (rec : SwapchainCreationResult)
    (hn : n < s.framebuffers.length)
    (hinv : ∀ e ∈ es, e.renderable.initialized = true →
      e.renderable.vertex_buffer.isSome ∧ e.renderable.index_buffer.isSome) :
    draw s ⟨es, []⟩ wd [.ok n false] rec (.ok fid)
      = .frame { s with previous_frame_end := .fenceFuture fid } ⟨scene_prep es, []⟩
          ((scene_prep es).map (fun e =>
            (e.transform.rotation * from_translation e.transform.global_position,
             ⟨(e.renderable.index_buffer.getD []).length, 1, 0, 0, 0⟩))) := by
  have henc := encode_entities_all_some 1 1 (scene_prep es) (scene_prep_all_some es hinv)
  simp only [draw, acquire_swapchain_image, List.map_nil, resolve_camera_matrices,
    List.foldl_nil, henc, hn, if_pos, handle_submit_result, one_mul, Bool.false_eq_true,
    if_false]

/-- C9 (witness): a one-entity scene without cameras draws that entity with
its bare model matrix as the uniform. -/
theorem draw_without_cameras_identity_view_projection_witness :
    0 < c9w_s.framebuffers.length
    ∧ (∀ e ∈ [c9w_entity], e.renderable.initialized = true →
        e.renderable.vertex_buffer.isSome ∧ e.renderable.index_buffer.isSome)
    ∧ draw c9w_s ⟨[c9w_entity], []⟩ (16, 9) [.ok 0 false] .otherError (.ok 2)
      = .frame { c9w_s with previous_frame_end := .fenceFuture 2 } ⟨scene_prep [c9w_entity], []⟩
          ((scene_prep [c9w_entity]).map (fun e =>
            (e.transform.rotation * from_translation e.transform.global_position,
             ⟨(e.renderable.index_buffer.getD []).length, 1, 0, 0, 0⟩))) :=
  ⟨by decide, by decide,
    draw_without_cameras_identity_view_projection c9w_s [c9w_entity] (16, 9) 0 2 .otherError
      (by decide) (by decide)⟩

end Ember
